import Mathlib

/-
  Shallow embedding of the TinyWS2812 driver (CTXz/TinyWS2812).

  Sources embedded:
    - src/src/ws2812_common.c : color-order table `_ws2812_get_rgbmap`
    - src/src/ws2812_avr.c    : `ws2812_config`, `ws2812_prep_tx`,
                                `ws2812_wait_rst`, `ws2812_tx_byte`,
                                `ws2812_tx`, `ws2812_close_tx`, `delay_us`
                                (barebone AVR and Arduino-AVR variants)
    - src/src/ws2812_stm8s.c  : the STM8S variants of the same functions

  Machine integers are modelled as `Nat` with explicit `% 256` (or `&&& 255`,
  `^^^ 255`) truncation exactly where the C code stores into a `uint8_t`.
  Hardware registers (AVR SREG, the output port register, the STM8S ODR
  register and interrupt-enable flag) are modelled as explicit state; the
  blocking micro-second waits are recorded as a trace of durations.
-/

/-! ## Color orders (ws2812_common.h enum `ws2812_order`)

The C enum values are rgb = 0, rbg = 1, brg = 2, bgr = 3, grb = 4, gbr = 5.
A C enum variable is an integer, so the order is modelled as `Int`
(out-of-range and negative values included). -/

def rgb : Int := 0

def rbg : Int := 1

def brg : Int := 2

def bgr : Int := 3

def grb : Int := 4

def gbr : Int := 5

/-! ## Color-order table (ws2812_common.c) -/

def ws2812_order_rgb : List Nat := [0, 1, 2]

def ws2812_order_rbg : List Nat := [0, 2, 1]

def ws2812_order_brg : List Nat := [2, 0, 1]

def ws2812_order_bgr : List Nat := [2, 1, 0]

def ws2812_order_grb : List Nat := [1, 0, 2]

def ws2812_order_gbr : List Nat := [1, 2, 0]

/-- Embedding of `_ws2812_get_rgbmap` (ws2812_common.c, lines 43-65):
a `switch (order)` with explicit cases `rbg, brg, bgr, grb, gbr` and a
`default` case (commented `// rgb` in the source) that copies the identity
map. The C function writes through an out-pointer; here it returns the
3-byte map that is copied into `dev->rgbmap`. -/
def _ws2812_get_rgbmap (order : Int) : List Nat :=
  if order = rbg then ws2812_order_rbg
  else if order = brg then ws2812_order_brg
  else if order = bgr then ws2812_order_bgr
  else if order = grb then ws2812_order_grb
  else if order = gbr then ws2812_order_gbr
  else ws2812_order_rgb

/-! ## Data structures -/

/-- Color triple `ws2812_rgb` (ws2812_common.h): `uint8_t r, g, b` with
`#pragma pack(1)`, so `((uint8_t *) &pxl)[0,1,2] = r, g, b`. -/
structure ws2812_rgb where
  r : Nat
  g : Nat
  b : Nat
deriving DecidableEq

/-- Device handle `struct ws2812`. On AVR `port` is a pointer to the PORT
register, on STM8S it is `port_baseaddr`; both are modelled as an abstract
register identifier. -/
structure ws2812 where
  port : Nat
  rst_time_us : Nat
  maskhi : Nat
  masklo : Nat
  rgbmap : List Nat
deriving DecidableEq

/-- Configuration record `ws2812_cfg` of the barebone-AVR target
(ws2812_avr.h): PORT register, DDR register, pin array (bit positions
within the one shared PORT), reset time, color order, device count. -/
structure ws2812_cfg_avr where
  port : Nat
  ddr : Nat
  pins : List Nat
  rst_time_us : Nat
  order : Int
  n_dev : Nat
deriving DecidableEq

/-- Configuration record `ws2812_cfg` of the Arduino-AVR target
(ws2812_avr.h): Arduino pin numbers, reset time, color order, device
count. -/
structure ws2812_cfg_ard where
  pins : List Nat
  rst_time_us : Nat
  order : Int
  n_dev : Nat
deriving DecidableEq

/-- Configuration record `ws2812_cfg` of the STM8S target (ws2812_stm8s.h):
port base address, pin masks (`GPIO_Pin_TypeDef`, already one-hot `uint8_t`
masks), reset time, color order, device count. -/
structure ws2812_cfg_stm8 where
  port_baseaddr : Nat
  pins : List Nat
  rst_time_us : Nat
  order : Int
  n_dev : Nat
deriving DecidableEq

/-! ## ws2812_config -/

/-- The barebone-AVR pin-mask loop (ws2812_avr.c, lines 143-144):
`for (i = 0; i < config.n_dev; i++) pin_msk |= 1 << config.pins[i];`
where `pin_msk` is a `uint8_t`, so each store truncates mod 256. -/
def avr_pin_msk (pins : List Nat) (n_dev : Nat) : Nat :=
  (List.range n_dev).foldl (fun m i => (m ||| ((1 <<< pins.getD i 0) % 256)) % 256) 0

/-- Embedding of the barebone-AVR `ws2812_config` (ws2812_avr.c, lines
126-156). `portVal` is the content of the PORT register `*config.port`
(equivalently `*(dev->port)`) at configuration time; a read of the 8-bit
register is modelled as `% 256`. Returns the `uint8_t` return code paired
with the resulting device struct (`dev` is returned unchanged on the early
`return 1`). The `*config.ddr = pin_msk` side effect is returned as the
third component (the value written to the DDR register, `none` when the
write is never reached). -/
def ws2812_config_avr (dev : ws2812) (cfg : ws2812_cfg_avr) (portVal : Nat) :
    Nat × ws2812 × Option Nat :=
  if cfg.n_dev = 0 then
    (1, dev, none)
  else
    let pin_msk := avr_pin_msk cfg.pins cfg.n_dev
    let pv := portVal % 256
    (0,
     { port := cfg.port
       rst_time_us := cfg.rst_time_us
       masklo := (pin_msk ^^^ 255) &&& pv
       maskhi := pin_msk ||| pv
       rgbmap := _ws2812_get_rgbmap cfg.order },
     some pin_msk)

/-- The Arduino-AVR configuration loop (ws2812_avr.c, lines 134-140) over
the first `n_dev` pins: at index `i`, if a next pin exists and
`digitalPinToPort(pins[i]) != digitalPinToPort(pins[i+1])` then
`return 2`; otherwise `pinMode(pins[i], OUTPUT)` and
`pin_msk |= digitalPinToBitMask(pins[i])` (a `uint8_t` store). `pp` is
`digitalPinToPort` and `pb` is `digitalPinToBitMask`, abstract parameters
supplied by the Arduino core. Returns `none` for the `return 2` path,
otherwise the accumulated `pin_msk`. -/
def ard_pin_loop (pp pb : Nat → Nat) : List Nat → Nat → Option Nat
  | [], msk => some msk
  | [p], msk => some ((msk ||| (pb p % 256)) % 256)
  | p :: q :: rest, msk =>
    if pp p ≠ pp q then none
    else ard_pin_loop pp pb (q :: rest) ((msk ||| (pb p % 256)) % 256)

/-- Embedding of the Arduino-AVR `ws2812_config` (ws2812_avr.c, lines
126-156, `WS2812_TARGET_PLATFORM_ARDUINO_AVR` branch). `por` is
`portOutputRegister`, mapping a port id to the output-register identity;
`portVal` is the content of that register at configuration time. -/
def ws2812_config_ard (pp pb por : Nat → Nat) (dev : ws2812) (cfg : ws2812_cfg_ard)
    (portVal : Nat) : Nat × ws2812 :=
  if cfg.n_dev = 0 then
    (1, dev)
  else
    let pins := (List.range cfg.n_dev).map (fun i => cfg.pins.getD i 0)
    match ard_pin_loop pp pb pins 0 with
    | none => (2, dev)
    | some pin_msk =>
      let pv := portVal % 256
      (0,
       { port := por (pp (pins.getD 0 0))
         rst_time_us := cfg.rst_time_us
         masklo := (pin_msk ^^^ 255) &&& pv
         maskhi := pin_msk ||| pv
         rgbmap := _ws2812_get_rgbmap cfg.order })

/-- The STM8S pin-mask loop (ws2812_stm8s.c, lines 96-99):
`for (i = 0; i < cfg->n_dev; i++) pin_msk |= cfg->pins[i];` where both
`pin_msk` and the pins are `uint8_t` (the `GPIO_Init` mode-switch side
effect carries no data relevant to the handle). -/
def stm8_pin_msk (pins : List Nat) (n_dev : Nat) : Nat :=
  (List.range n_dev).foldl (fun m i => (m ||| (pins.getD i 0 % 256)) % 256) 0

/-- Embedding of the STM8S `ws2812_config` (ws2812_stm8s.c, lines 87-107).
It performs no validation whatsoever and always returns 0; `masklo` is the
`uint8_t` complement `~pin_msk`. -/
def ws2812_config_stm8s (dev : ws2812) (cfg : ws2812_cfg_stm8) : Nat × ws2812 :=
  let pin_msk := stm8_pin_msk cfg.pins cfg.n_dev
  (0,
   { port := cfg.port_baseaddr
     rst_time_us := cfg.rst_time_us
     maskhi := pin_msk
     masklo := pin_msk ^^^ 255
     rgbmap := _ws2812_get_rgbmap cfg.order })

/-! ## AVR machine state and transaction guard (ws2812_avr.c) -/

/-- Machine state visible to the AVR transaction guard: the 8-bit status
register SREG (bit 7 is the global interrupt-enable flag I), the static
driver variables `_sreg_prev` and `_prep`, and the trace of blocking
micro-second waits performed so far. -/
structure avr_machine where
  sreg : Nat
  sreg_prev : Nat
  prep : Bool
  waits : List Nat
deriving DecidableEq

/-- `cli()`: clear the I flag (bit 7) of SREG. -/
def avr_cli (m : avr_machine) : avr_machine :=
  { m with sreg := m.sreg &&& 127 }

/-- `sei()`: set the I flag (bit 7) of SREG. -/
def avr_sei (m : avr_machine) : avr_machine :=
  { m with sreg := m.sreg ||| 128 }

/-- Embedding of the barebone-AVR `delay_us` (ws2812_avr.c, lines 116-122):
`cli();` then a busy loop of `us` one-microsecond delays, then `sei();`.
The blocking wait is recorded in the trace. -/
def avr_delay_us (us : Nat) (m : avr_machine) : avr_machine :=
  let m1 := avr_cli m
  let m2 := { m1 with waits := m1.waits ++ [us] }
  avr_sei m2

/-- Embedding of the AVR `ws2812_prep_tx` (ws2812_avr.c, lines 159-166):
`if (_prep == false) { _sreg_prev = SREG; cli(); _prep = true; }`. -/
def ws2812_prep_tx_avr (m : avr_machine) : avr_machine :=
  if m.prep = false then
    let m1 := { m with sreg_prev := m.sreg }
    let m2 := avr_cli m1
    { m2 with prep := true }
  else m

/-- Embedding of the barebone-AVR `ws2812_wait_rst` (ws2812_avr.c, lines
169-176): `delay_us(dev->rst_time_us);`. -/
def ws2812_wait_rst_avr (dev : ws2812) (m : avr_machine) : avr_machine :=
  avr_delay_us dev.rst_time_us m

/-- Embedding of the AVR `ws2812_close_tx` (ws2812_avr.c, lines 272-280):
`if (_prep == true) { SREG = _sreg_prev; sei(); _prep = false;
ws2812_wait_rst(dev); }`. -/
def ws2812_close_tx_avr (dev : ws2812) (m : avr_machine) : avr_machine :=
  if m.prep = true then
    let m1 := { m with sreg := m.sreg_prev }
    let m2 := avr_sei m1
    let m3 := { m2 with prep := false }
    ws2812_wait_rst_avr dev m3
  else m

/-! ## STM8S machine state and transaction guard (ws2812_stm8s.c) -/

/-- Machine state visible to the STM8S transaction guard: the global
interrupt-enable flag, the static driver variables `_prep`,
`_port_odr_addr`, `_mask_hi`, `_mask_lo`, and the trace of blocking
micro-second waits. -/
structure stm8_machine where
  int_enabled : Bool
  prep : Bool
  port_odr_addr : Nat
  mask_hi : Nat
  mask_lo : Nat
  waits : List Nat
deriving DecidableEq

/-- Embedding of the STM8S `delay_us` (ws2812_stm8s.c, lines 69-84):
`disableInterrupts();` then the cycle-counted busy loop, then
`enableInterrupts();`. -/
def stm8_delay_us (us : Nat) (m : stm8_machine) : stm8_machine :=
  let m1 := { m with int_enabled := false }
  let m2 := { m1 with waits := m1.waits ++ [us] }
  { m2 with int_enabled := true }

/-- Embedding of the STM8S `ws2812_prep_tx` (ws2812_stm8s.c, lines
110-122): early-return when already prepared, otherwise copy the handle's
port address and masks into the static globals, set `_prep`, and
`disableInterrupts()`. Note: no snapshot of the interrupt-enable state is
taken on this platform. -/
def ws2812_prep_tx_stm8 (dev : ws2812) (m : stm8_machine) : stm8_machine :=
  if m.prep = true then m
  else
    let m1 := { m with port_odr_addr := dev.port }
    let m2 := { m1 with mask_hi := dev.maskhi }
    let m3 := { m2 with mask_lo := dev.masklo }
    let m4 := { m3 with prep := true }
    { m4 with int_enabled := false }

/-- Embedding of the STM8S `ws2812_wait_rst` (ws2812_stm8s.c, lines
125-128): `delay_us(dev->rst_time_us);`. -/
def ws2812_wait_rst_stm8 (dev : ws2812) (m : stm8_machine) : stm8_machine :=
  stm8_delay_us dev.rst_time_us m

/-- Embedding of the STM8S `ws2812_close_tx` (ws2812_stm8s.c, lines
267-275): early-return when not prepared, otherwise
`enableInterrupts(); _prep = false; ws2812_wait_rst(dev);`. -/
def ws2812_close_tx_stm8 (dev : ws2812) (m : stm8_machine) : stm8_machine :=
  if m.prep = false then m
  else
    let m1 := { m with int_enabled := true }
    let m2 := { m1 with prep := false }
    ws2812_wait_rst_stm8 dev m2

/-! ## Byte transmission (bit order) -/

/-- The STM8S `ws2812_tx_byte` loop (ws2812_stm8s.c, lines 242-253),
extracted to the sequence of transmitted bit values: 8 iterations, each
testing `byte & 0b10000000` to choose between `ws2812_tx_bit_1` and
`ws2812_tx_bit_0`, then `byte <<= 1` (a `uint8_t` shift, truncating mod
256). The first argument is the remaining loop count `8 - i`. -/
def ws2812_tx_byte_stm8_loop : Nat → Nat → List Bool
  | 0, _ => []
  | n + 1, byte =>
    (byte &&& 128 ≠ 0 : Bool) :: ws2812_tx_byte_stm8_loop n ((byte <<< 1) % 256)

/-- Bit values transmitted by the STM8S `ws2812_tx_byte(byte)` for a
`uint8_t` argument. -/
def ws2812_tx_byte_stm8 (byte : Nat) : List Bool :=
  ws2812_tx_byte_stm8_loop 8 byte

/-- The AVR `ws2812_tx_byte` assembly loop (ws2812_avr.c, lines 191-256),
extracted to the sequence of transmitted bit values: `ldi ctr, 8` then a
loop that tests bit 7 of the data byte (`sbrs %1,7` decides the early
falling edge, and the carry of `lsl %1` — the shifted-out bit 7 — decides
the late falling edge via `brcc`), shifts the byte left (`lsl`, an 8-bit
shift), decrements `ctr` and branches while nonzero. The first argument is
the remaining loop count `ctr`. -/
def ws2812_tx_byte_avr_loop : Nat → Nat → List Bool
  | 0, _ => []
  | ctr + 1, byte =>
    byte.testBit 7 :: ws2812_tx_byte_avr_loop ctr ((byte <<< 1) % 256)

/-- Bit values transmitted by the AVR `ws2812_tx_byte(dev, byte)` for a
`uint8_t` argument. -/
def ws2812_tx_byte_avr (byte : Nat) : List Bool :=
  ws2812_tx_byte_avr_loop 8 byte

/-! ## Pixel stream encoding (ws2812_tx, identical loop on both targets) -/

/-- `((uint8_t *) &pxl)[idx]` on the packed `ws2812_rgb` struct: byte 0 is
`r`, byte 1 is `g`, byte 2 is `b`. -/
def pxl_byte (p : ws2812_rgb) (idx : Nat) : Nat :=
  [p.r, p.g, p.b].getD idx 0

/-- The inner loop of `ws2812_tx` (ws2812_avr.c, lines 264-267 and
ws2812_stm8s.c, lines 259-262): `for (j = 0; j < sizeof(dev->rgbmap); j++)
ws2812_tx_byte(... pxl[dev->rgbmap[j]])` with `sizeof(dev->rgbmap) = 3`,
unrolled to its three iterations. Produces the 3 byte values handed to
`ws2812_tx_byte` for one pixel. -/
def ws2812_tx_pixel (dev : ws2812) (p : ws2812_rgb) : List Nat :=
  [pxl_byte p (dev.rgbmap.getD 0 0),
   pxl_byte p (dev.rgbmap.getD 1 0),
   pxl_byte p (dev.rgbmap.getD 2 0)]

/-- The outer loop of `ws2812_tx` (ws2812_avr.c, lines 261-269 and
ws2812_stm8s.c, lines 256-264): iterate the caller's pixel sequence in
order, producing the flat sequence of byte values handed to
`ws2812_tx_byte`. -/
def ws2812_tx (dev : ws2812) : List ws2812_rgb → List Nat
  | [] => []
  | p :: rest => ws2812_tx_pixel dev p ++ ws2812_tx dev rest

/-! ## Example configurations used for concrete instances -/

/-- An arbitrary initial device struct (contents irrelevant: it models the
caller's uninitialized `ws2812 dev;`). -/
def dev_ex : ws2812 :=
  { port := 0, rst_time_us := 0, maskhi := 0, masklo := 0, rgbmap := [0, 0, 0] }

/-- One device on pin 0, reset time 50 us, color order `grb`. -/
def cfg_grb_ex : ws2812_cfg_avr :=
  { port := 0, ddr := 0, pins := [0], rst_time_us := 50, order := grb, n_dev := 1 }

/-- One device on pin 0, reset time 50 us, color order `bgr`. -/
def cfg_bgr_ex : ws2812_cfg_avr :=
  { port := 0, ddr := 0, pins := [0], rst_time_us := 50, order := bgr, n_dev := 1 }

/-- A zero-device STM8S configuration. -/
def cfg_stm8_zero : ws2812_cfg_stm8 :=
  { port_baseaddr := 0, pins := [], rst_time_us := 50, order := rgb, n_dev := 0 }

/-! ## Theorems -/

set_option maxRecDepth 8192

/-- C4: for every one of the six supported color orders, the rgbmap
produced by `_ws2812_get_rgbmap` is a permutation of {0,1,2}; the `rgb`
map is the identity, the `bgr` map is the reversal, and each of those two
composed with itself is the identity (stated by evaluating the composed
map at the three indices). -/
theorem c4_rgbmap_permutations :
    (_ws2812_get_rgbmap rgb).Perm [0, 1, 2] ∧
    (_ws2812_get_rgbmap rbg).Perm [0, 1, 2] ∧
    (_ws2812_get_rgbmap brg).Perm [0, 1, 2] ∧
    (_ws2812_get_rgbmap bgr).Perm [0, 1, 2] ∧
    (_ws2812_get_rgbmap grb).Perm [0, 1, 2] ∧
    (_ws2812_get_rgbmap gbr).Perm [0, 1, 2] ∧
    _ws2812_get_rgbmap rgb = [0, 1, 2] ∧
    _ws2812_get_rgbmap bgr = [0, 1, 2].reverse ∧
    [(_ws2812_get_rgbmap rgb).getD ((_ws2812_get_rgbmap rgb).getD 0 0) 0,
     (_ws2812_get_rgbmap rgb).getD ((_ws2812_get_rgbmap rgb).getD 1 0) 0,
     (_ws2812_get_rgbmap rgb).getD ((_ws2812_get_rgbmap rgb).getD 2 0) 0] = [0, 1, 2] ∧
    [(_ws2812_get_rgbmap bgr).getD ((_ws2812_get_rgbmap bgr).getD 0 0) 0,
     (_ws2812_get_rgbmap bgr).getD ((_ws2812_get_rgbmap bgr).getD 1 0) 0,
     (_ws2812_get_rgbmap bgr).getD ((_ws2812_get_rgbmap bgr).getD 2 0) 0] = [0, 1, 2] := by
  decide

/-- C9: every order value other than `rbg`, `brg`, `bgr`, `grb`, `gbr`
(so `rgb` itself as well as every out-of-range value, negative values
included) falls into the `default` case of the switch, which writes the
identity permutation — the default case is functionally an explicit `rgb`
case. -/
theorem c9_default_case_rgb (o : Int)
    (h1 : o ≠ rbg) (h2 : o ≠ brg) (h3 : o ≠ bgr) (h4 : o ≠ grb) (h5 : o ≠ gbr) :
    _ws2812_get_rgbmap o = ws2812_order_rgb := by
  simp [_ws2812_get_rgbmap, h1, h2, h3, h4, h5]

/-- Witness for C9: the in-range value `rgb` (0) and hence the identity
map; every hypothesis discharged at the concrete input. -/
theorem c9_default_case_rgb_witness :
    _ws2812_get_rgbmap rgb = ws2812_order_rgb :=
  c9_default_case_rgb rgb (by decide) (by decide) (by decide) (by decide)
    (by decide)

/-- C2: for every byte value (any `uint8_t`, i.e. any `b < 256`), both the
STM8S and the AVR byte-transmission loops emit exactly 8 bit values, most
significant bit first. -/
theorem c2_tx_byte_msb_first (b : Nat) (hb : b < 256) :
    ws2812_tx_byte_stm8 b = (List.range 8).map (fun i => b.testBit (7 - i)) ∧
    ws2812_tx_byte_avr b = (List.range 8).map (fun i => b.testBit (7 - i)) ∧
    (ws2812_tx_byte_stm8 b).length = 8 ∧
    (ws2812_tx_byte_avr b).length = 8 := by
  revert b
  decide

/-- Witness for C2 at the spec's concrete byte `0b10110000` (= 176): the
transmitted bit order is 1,0,1,1,0,0,0,0. -/
theorem c2_tx_byte_msb_first_witness :
    ws2812_tx_byte_stm8 176
        = (List.range 8).map (fun i => Nat.testBit 176 (7 - i)) ∧
    ws2812_tx_byte_stm8 176
        = [true, false, true, true, false, false, false, false] :=
  ⟨(c2_tx_byte_msb_first 176 (by decide)).1, by decide⟩

/-- Length of the transmitted byte sequence: 3 bytes per pixel. -/
theorem ws2812_tx_length (dev : ws2812) (pxls : List ws2812_rgb) :
    (ws2812_tx dev pxls).length = 3 * pxls.length := by
  induction pxls with
  | nil => simp [ws2812_tx]
  | cons p rest ih =>
    simp [ws2812_tx, ws2812_tx_pixel, ih]
    ring

/-- Positional characterization of `ws2812_tx`: the byte at position
`3 * i + j` is channel `rgbmap[j]` of the `i`-th pixel. -/
theorem ws2812_tx_getD (dev : ws2812) (pxls : List ws2812_rgb) (i j : Nat)
    (hi : i < pxls.length) (hj : j < 3) :
    (ws2812_tx dev pxls).getD (3 * i + j) 0 =
      pxl_byte (pxls.getD i ⟨0, 0, 0⟩) (dev.rgbmap.getD j 0) := by
  induction pxls generalizing i with
  | nil => simp at hi
  | cons p rest ih =>
    have hplen : (ws2812_tx_pixel dev p).length = 3 := by
      simp [ws2812_tx_pixel]
    cases i with
    | zero =>
      show ((ws2812_tx_pixel dev p ++ ws2812_tx dev rest).getD (3 * 0 + j) 0) = _
      rw [List.getD_append _ _ _ _ (by omega)]
      interval_cases j <;> simp [ws2812_tx_pixel]
    | succ k =>
      show ((ws2812_tx_pixel dev p ++ ws2812_tx dev rest).getD (3 * (k + 1) + j) 0) = _
      rw [List.getD_append_right _ _ _ _ (by omega)]
      have hidx : 3 * (k + 1) + j - (ws2812_tx_pixel dev p).length = 3 * k + j := by
        omega
      rw [hidx]
      have hk : k < rest.length := by simp at hi; omega
      simpa using ih k hk

/-- C1: `ws2812_tx` transmits, for each color triple in sequence order,
exactly 3 bytes (so `3 * n` bytes in total), the byte at position
`3 * i + j` being the channel of pixel `i` selected by `rgbmap[j]`; under
color order `grb` the triple (10, 20, 30) is transmitted as (20, 10, 30)
and under `bgr` as (30, 20, 10), with the handles produced by
`ws2812_config`. -/
theorem c1_tx_permuted_bytes (dev : ws2812) (pxls : List ws2812_rgb) (i j : Nat)
    (hi : i < pxls.length) (hj : j < 3) :
    (ws2812_tx dev pxls).length = 3 * pxls.length ∧
    (ws2812_tx dev pxls).getD (3 * i + j) 0 =
      pxl_byte (pxls.getD i ⟨0, 0, 0⟩) (dev.rgbmap.getD j 0) ∧
    ws2812_tx (ws2812_config_avr dev_ex cfg_grb_ex 0).2.1 [⟨10, 20, 30⟩]
        = [20, 10, 30] ∧
    ws2812_tx (ws2812_config_avr dev_ex cfg_bgr_ex 0).2.1 [⟨10, 20, 30⟩]
        = [30, 20, 10] :=
  ⟨ws2812_tx_length dev pxls, ws2812_tx_getD dev pxls i j hi hj, by decide, by decide⟩

/-- Witness for C1: the handle configured with order `grb`, the single
pixel (10, 20, 30), position i = 0, j = 1 (the second wire byte, which is
the red channel 10 under `grb`). -/
theorem c1_tx_permuted_bytes_witness :
    (ws2812_tx (ws2812_config_avr dev_ex cfg_grb_ex 0).2.1 [⟨10, 20, 30⟩]).length
        = 3 * 1 ∧
    (ws2812_tx (ws2812_config_avr dev_ex cfg_grb_ex 0).2.1 [⟨10, 20, 30⟩]).getD
        (3 * 0 + 1) 0 =
      pxl_byte ([(⟨10, 20, 30⟩ : ws2812_rgb)].getD 0 ⟨0, 0, 0⟩)
        ((ws2812_config_avr dev_ex cfg_grb_ex 0).2.1.rgbmap.getD 1 0) := by
  have h := c1_tx_permuted_bytes (ws2812_config_avr dev_ex cfg_grb_ex 0).2.1
    [⟨10, 20, 30⟩] 0 1 (by decide) (by decide)
  exact ⟨by simpa using h.1, h.2.1⟩

/-- After `ws2812_prep_tx` the AVR driver is in the Prepared state. -/
theorem prep_avr_prep (m : avr_machine) : (ws2812_prep_tx_avr m).prep = true := by
  cases hm : m.prep <;> simp [ws2812_prep_tx_avr, hm, avr_cli]

/-- The AVR `ws2812_prep_tx` is idempotent on the machine state. -/
theorem prep_avr_idem (m : avr_machine) :
    ws2812_prep_tx_avr (ws2812_prep_tx_avr m) = ws2812_prep_tx_avr m := by
  cases hm : m.prep <;> simp [ws2812_prep_tx_avr, hm, avr_cli]

/-- After `ws2812_prep_tx` the STM8S driver is in the Prepared state. -/
theorem prep_stm8_prep (dev : ws2812) (m : stm8_machine) :
    (ws2812_prep_tx_stm8 dev m).prep = true := by
  cases hm : m.prep <;> simp [ws2812_prep_tx_stm8, hm]

/-- The STM8S `ws2812_prep_tx` is idempotent on the machine state. -/
theorem prep_stm8_idem (dev : ws2812) (m : stm8_machine) :
    ws2812_prep_tx_stm8 dev (ws2812_prep_tx_stm8 dev m) = ws2812_prep_tx_stm8 dev m := by
  cases hm : m.prep <;> simp [ws2812_prep_tx_stm8, hm]

/-- C6: calling `ws2812_prep_tx` N > 0 times consecutively (no intervening
close) leaves the machine exactly as after one call — in particular the
state is Prepared and, starting from an Idle state, the saved interrupt
snapshot `_sreg_prev` equals the SREG value captured by the first call —
on both the AVR and the STM8S target. -/
theorem c6_prep_idempotent (n : Nat) (hn : 1 ≤ n) (m : avr_machine)
    (dev : ws2812) (ms : stm8_machine) :
    ws2812_prep_tx_avr^[n] m = ws2812_prep_tx_avr m ∧
    (ws2812_prep_tx_avr^[n] m).prep = true ∧
    (m.prep = false → (ws2812_prep_tx_avr^[n] m).sreg_prev = m.sreg) ∧
    (ws2812_prep_tx_stm8 dev)^[n] ms = ws2812_prep_tx_stm8 dev ms := by
  obtain ⟨k, rfl⟩ : ∃ k, n = k + 1 := ⟨n - 1, by omega⟩
  have havr : ws2812_prep_tx_avr^[k + 1] m = ws2812_prep_tx_avr m := by
    rw [Function.iterate_succ_apply]
    exact Function.iterate_fixed (prep_avr_idem m) k
  have hstm : (ws2812_prep_tx_stm8 dev)^[k + 1] ms = ws2812_prep_tx_stm8 dev ms := by
    rw [Function.iterate_succ_apply]
    exact Function.iterate_fixed (prep_stm8_idem dev ms) k
  refine ⟨havr, ?_, ?_, hstm⟩
  · rw [havr]; exact prep_avr_prep m
  · intro hidle
    rw [havr]
    unfold ws2812_prep_tx_avr
    simp [hidle, avr_cli]

/-- Witness for C6: two consecutive prepare calls from the initial Idle
states of both machines. -/
theorem c6_prep_idempotent_witness :
    ws2812_prep_tx_avr^[2] ⟨130, 0, false, []⟩
        = ws2812_prep_tx_avr ⟨130, 0, false, []⟩ ∧
    (ws2812_prep_tx_avr^[2] ⟨130, 0, false, []⟩).prep = true ∧
    ((⟨130, 0, false, []⟩ : avr_machine).prep = false →
      (ws2812_prep_tx_avr^[2] ⟨130, 0, false, []⟩).sreg_prev = 130) ∧
    (ws2812_prep_tx_stm8 dev_ex)^[2] ⟨true, false, 0, 0, 0, []⟩
        = ws2812_prep_tx_stm8 dev_ex ⟨true, false, 0, 0, 0, []⟩ :=
  c6_prep_idempotent 2 (by decide) ⟨130, 0, false, []⟩ dev_ex ⟨true, false, 0, 0, 0, []⟩

/-- C7: `ws2812_close_tx` called in the Idle state is a no-op on both
targets: the machine state — interrupt-enable state, session flag and the
trace of blocking waits — is returned unchanged. -/
theorem c7_close_idle_noop (dev : ws2812) (m : avr_machine) (ms : stm8_machine)
    (hm : m.prep = false) (hms : ms.prep = false) :
    ws2812_close_tx_avr dev m = m ∧ ws2812_close_tx_stm8 dev ms = ms := by
  constructor
  · unfold ws2812_close_tx_avr
    simp [hm]
  · unfold ws2812_close_tx_stm8
    simp [hms]

/-- Witness for C7: Idle machines with interrupts disabled and an empty
wait trace. -/
theorem c7_close_idle_noop_witness :
    ws2812_close_tx_avr dev_ex ⟨0, 17, false, []⟩ = ⟨0, 17, false, []⟩ ∧
    ws2812_close_tx_stm8 dev_ex ⟨false, false, 3, 1, 254, []⟩
        = ⟨false, false, 3, 1, 254, []⟩ :=
  c7_close_idle_noop dev_ex ⟨0, 17, false, []⟩ ⟨false, false, 3, 1, 254, []⟩
    (by decide) (by decide)

/-- C5 counterexample: start the AVR machine with interrupts disabled
(SREG = 0, I flag clear) and session Idle; after `ws2812_prep_tx` the
snapshot `_sreg_prev` is 0 (interrupts disabled), yet `ws2812_close_tx`
leaves SREG = 128 — the I flag has been forced on by the trailing `sei()`,
so the restored interrupt-enable state is *not* exactly the snapshotted
value. -/
theorem c5_counterexample :
    (ws2812_prep_tx_avr ⟨0, 0, false, []⟩).sreg_prev = 0 ∧
    (ws2812_close_tx_avr dev_ex (ws2812_prep_tx_avr ⟨0, 0, false, []⟩)).sreg = 128 ∧
    (ws2812_close_tx_avr dev_ex (ws2812_prep_tx_avr ⟨0, 0, false, []⟩)).sreg ≠
      (ws2812_prep_tx_avr ⟨0, 0, false, []⟩).sreg_prev := by
  decide

/-- Over 8-bit values, writing back a value, then `sei`, then the
`cli`/`sei` pair inside `delay_us`, amounts to the value with bit 7 set. -/
theorem sreg_restore_sei (x : Nat) (hx : x < 256) :
    ((x ||| 128) &&& 127) ||| 128 = x ||| 128 := by
  revert x
  decide

/-- C5 (amended): when the session is Prepared, `ws2812_close_tx` on AVR
writes the snapshotted SREG value back and then *additionally* executes
`sei()`, so the final SREG is the snapshot with the interrupt-enable bit
forced on (`_sreg_prev ||| 128`) rather than the exact snapshot; it then
blocks once for the handle's `rst_time_us`, leaving the session Idle. On
STM8S no snapshot exists at all: close unconditionally enables interrupts,
clears the session flag and blocks for `rst_time_us`. -/
theorem c5_close_restores_amended (dev : ws2812) (m : avr_machine)
    (ms : stm8_machine) (hm : m.prep = true) (h256 : m.sreg_prev < 256)
    (hms : ms.prep = true) :
    ws2812_close_tx_avr dev m =
      { sreg := m.sreg_prev ||| 128
        sreg_prev := m.sreg_prev
        prep := false
        waits := m.waits ++ [dev.rst_time_us] } ∧
    ws2812_close_tx_stm8 dev ms =
      { ms with int_enabled := true
                prep := false
                waits := ms.waits ++ [dev.rst_time_us] } := by
  constructor
  · simp [ws2812_close_tx_avr, hm, ws2812_wait_rst_avr, avr_delay_us, avr_cli,
      avr_sei, sreg_restore_sei m.sreg_prev h256]
  · simp [ws2812_close_tx_stm8, hms, ws2812_wait_rst_stm8, stm8_delay_us]

/-- Witness for C5 (amended): a Prepared AVR machine whose snapshot 42 has
interrupts disabled, and a Prepared STM8S machine. -/
theorem c5_close_restores_amended_witness :
    ws2812_close_tx_avr dev_ex ⟨0, 42, true, []⟩ =
      { sreg := 42 ||| 128, sreg_prev := 42, prep := false, waits := [] ++ [0] } ∧
    ws2812_close_tx_stm8 dev_ex ⟨false, true, 0, 1, 254, []⟩ =
      { (⟨false, true, 0, 1, 254, []⟩ : stm8_machine) with
          int_enabled := true, prep := false, waits := [] ++ [0] } :=
  c5_close_restores_amended dev_ex ⟨0, 42, true, []⟩ ⟨false, true, 0, 1, 254, []⟩
    (by decide) (by decide) (by decide)

/-- Bit `k` of the literal 255 is set exactly for `k < 8`. -/
theorem testBit_255 (k : Nat) : (255 : Nat).testBit k = decide (k < 8) := by
  simpa using Nat.testBit_two_pow_sub_one 8 k

/-- Bits at or above position 8 of an 8-bit value are clear. -/
theorem testBit_high_of_lt_256 (x k : Nat) (hx : x < 256) (hk : 8 ≤ k) :
    x.testBit k = false := by
  apply Nat.testBit_lt_two_pow
  calc x < 256 := hx
    _ = 2 ^ 8 := by norm_num
    _ ≤ 2 ^ k := Nat.pow_le_pow_right (by norm_num) hk

/-- C8: the device masks only ever touch the configured pin bits. On AVR,
`maskhi`/`masklo` are composed against the PORT register's contents at
configuration time, so on every bit outside the pin mask a store of either
mask writes back exactly the register's configuration-time bit — the bit
stays unchanged as long as the register still agrees with its
configuration-time contents there (which holds as long as no other code
writes the register). On STM8S, each transmission store is a
read-modify-write (`or` with `maskhi`, then `and` with `masklo`), which
leaves every bit outside the pin mask of any 8-bit register value
unchanged. -/
theorem c8_mask_frame_preservation :
    (∀ (cfg : ws2812_cfg_avr) (pv : Nat) (dev0 : ws2812) (r k : Nat),
        cfg.n_dev ≠ 0 →
        (avr_pin_msk cfg.pins cfg.n_dev).testBit k = false →
        r.testBit k = (pv % 256).testBit k →
        ((ws2812_config_avr dev0 cfg pv).2.1.maskhi.testBit k = r.testBit k ∧
         (ws2812_config_avr dev0 cfg pv).2.1.masklo.testBit k = r.testBit k)) ∧
    (∀ (cfg : ws2812_cfg_stm8) (dev0 : ws2812) (r k : Nat),
        r < 256 →
        (stm8_pin_msk cfg.pins cfg.n_dev).testBit k = false →
        ((r ||| (ws2812_config_stm8s dev0 cfg).2.maskhi).testBit k = r.testBit k ∧
         ((r ||| (ws2812_config_stm8s dev0 cfg).2.maskhi) &&&
             (ws2812_config_stm8s dev0 cfg).2.masklo).testBit k = r.testBit k)) := by
  constructor
  · intro cfg pv dev0 r k hnd hpk hr
    simp only [ws2812_config_avr, hnd, if_false]
    constructor
    · rw [hr, Nat.testBit_lor, hpk]
      simp
    · rw [hr, Nat.testBit_land, Nat.testBit_xor, hpk, testBit_255]
      by_cases hk : k < 8
      · simp [hk]
      · rw [testBit_high_of_lt_256 (pv % 256) k (Nat.mod_lt _ (by norm_num)) (by omega)]
        simp [hk]
  · intro cfg dev0 r k hr hpk
    simp only [ws2812_config_stm8s]
    constructor
    · rw [Nat.testBit_lor, hpk]
      simp
    · rw [Nat.testBit_land, Nat.testBit_lor, hpk, Nat.testBit_xor, hpk, testBit_255]
      by_cases hk : k < 8
      · simp [hk]
      · rw [testBit_high_of_lt_256 r k hr (by omega)]
        simp [hk]

/-- Witness for C8: one device on pin 0 (pin mask 1), configuration-time
port value 2, register value 2, bit position 1 (outside the pin mask). -/
theorem c8_mask_frame_preservation_witness :
    ((ws2812_config_avr dev_ex cfg_grb_ex 2).2.1.maskhi.testBit 1
        = Nat.testBit 2 1 ∧
     (ws2812_config_avr dev_ex cfg_grb_ex 2).2.1.masklo.testBit 1
        = Nat.testBit 2 1) ∧
    ((2 ||| (ws2812_config_stm8s dev_ex ⟨0, [1], 50, rgb, 1⟩).2.maskhi).testBit 1
        = Nat.testBit 2 1 ∧
     ((2 ||| (ws2812_config_stm8s dev_ex ⟨0, [1], 50, rgb, 1⟩).2.maskhi) &&&
         (ws2812_config_stm8s dev_ex ⟨0, [1], 50, rgb, 1⟩).2.masklo).testBit 1
        = Nat.testBit 2 1) :=
  ⟨c8_mask_frame_preservation.1 cfg_grb_ex 2 dev_ex 2 1 (by decide) (by decide)
      (by decide),
   c8_mask_frame_preservation.2 ⟨0, [1], 50, rgb, 1⟩ dev_ex 2 1 (by decide)
      (by decide)⟩

/-- C10: whenever `ws2812_config` on the AVR targets returns a nonzero
error code, the device-handle struct is returned unmodified — no field has
been written (configuration is atomic on error). -/
theorem c10_config_error_atomicity :
    (∀ (dev : ws2812) (cfg : ws2812_cfg_avr) (pv : Nat),
        (ws2812_config_avr dev cfg pv).1 ≠ 0 →
        (ws2812_config_avr dev cfg pv).2.1 = dev) ∧
    (∀ (pp pb por : Nat → Nat) (dev : ws2812) (cfg : ws2812_cfg_ard) (pv : Nat),
        (ws2812_config_ard pp pb por dev cfg pv).1 ≠ 0 →
        (ws2812_config_ard pp pb por dev cfg pv).2 = dev) := by
  constructor
  · intro dev cfg pv hcode
    by_cases h : cfg.n_dev = 0
    · simp [ws2812_config_avr, h]
    · exfalso
      exact hcode (by simp [ws2812_config_avr, h])
  · intro pp pb por dev cfg pv hcode
    by_cases h : cfg.n_dev = 0
    · simp [ws2812_config_ard, h]
    · cases hloop : ard_pin_loop pp pb
        ((List.range cfg.n_dev).map fun i => cfg.pins.getD i 0) 0 with
      | none =>
        simp only [ws2812_config_ard, if_neg h]
        rw [hloop]
      | some msk =>
        exfalso
        apply hcode
        simp only [ws2812_config_ard, if_neg h]
        rw [hloop]

/-- Witness for C10: zero-device configurations on both AVR variants (the
error paths), with the identity as the Arduino pin-to-port maps. -/
theorem c10_config_error_atomicity_witness :
    (ws2812_config_avr dev_ex ⟨0, 0, [], 50, rgb, 0⟩ 0).2.1 = dev_ex ∧
    (ws2812_config_ard id id id dev_ex ⟨[], 50, rgb, 0⟩ 0).2 = dev_ex :=
  ⟨c10_config_error_atomicity.1 dev_ex ⟨0, 0, [], 50, rgb, 0⟩ 0 (by decide),
   c10_config_error_atomicity.2 id id id dev_ex ⟨[], 50, rgb, 0⟩ 0 (by decide)⟩

/-- The Arduino configuration loop hits its `return 2` path exactly when
the port ids of the scanned pins do not form an equal chain, i.e. some
adjacent pair maps to different ports. The accumulated mask does not
influence this outcome. -/
theorem ard_pin_loop_none_iff (pp pb : Nat → Nat) (l : List Nat) (msk : Nat) :
    ard_pin_loop pp pb l msk = none ↔ ¬ (l.map pp).Chain' (· = ·) := by
  induction l generalizing msk with
  | nil => simp [ard_pin_loop]
  | cons p rest ih =>
    cases rest with
    | nil => simp [ard_pin_loop]
    | cons q rest2 =>
      by_cases h : pp p = pp q
      · simp [ard_pin_loop, h, ih]
      · simp [ard_pin_loop, h]

/-- C3 counterexample: the STM8S `ws2812_config` accepts a configuration
naming zero devices — it returns 0 (success) and produces a handle, so
a configuration error is *not* returned for every empty device set and
the claimed iff fails on this target. -/
theorem c3_counterexample :
    cfg_stm8_zero.n_dev = 0 ∧
    (ws2812_config_stm8s dev_ex cfg_stm8_zero).1 = 0 := by
  decide

/-- C3 (amended): on the barebone-AVR target `ws2812_config` returns a
nonzero code iff the configuration names zero devices (its single-PORT
configuration cannot span registers); on the Arduino-AVR target iff the
configuration names zero devices or its pins span more than one output
port (not all scanned pins map to pairwise-equal ports); the STM8S target
performs no validation and always returns 0. Later operations
(`ws2812_prep_tx`, `ws2812_tx`, `ws2812_wait_rst`, `ws2812_close_tx`)
return no code at all, so no configuration error can arise after
`ws2812_config`. -/
theorem c3_config_validation_amended :
    (∀ (dev : ws2812) (cfg : ws2812_cfg_avr) (pv : Nat),
        ((ws2812_config_avr dev cfg pv).1 ≠ 0 ↔ cfg.n_dev = 0)) ∧
    (∀ (pp pb por : Nat → Nat) (dev : ws2812) (cfg : ws2812_cfg_ard) (pv : Nat),
        ((ws2812_config_ard pp pb por dev cfg pv).1 ≠ 0 ↔
          (cfg.n_dev = 0 ∨
            ¬ (((List.range cfg.n_dev).map (fun i => cfg.pins.getD i 0)).map pp).Pairwise
                (· = ·)))) ∧
    (∀ (dev : ws2812) (cfg : ws2812_cfg_stm8), (ws2812_config_stm8s dev cfg).1 = 0) := by
  refine ⟨?_, ?_, ?_⟩
  · intro dev cfg pv
    by_cases h : cfg.n_dev = 0 <;> simp [ws2812_config_avr, h]
  · intro pp pb por dev cfg pv
    haveI : IsTrans Nat (· = ·) := ⟨fun _ _ _ hab hbc => hab.trans hbc⟩
    rw [← List.chain'_iff_pairwise,
      ← ard_pin_loop_none_iff pp pb ((List.range cfg.n_dev).map fun i => cfg.pins.getD i 0) 0]
    by_cases h : cfg.n_dev = 0
    · simp [ws2812_config_ard, h]
    · cases hloop : ard_pin_loop pp pb
        ((List.range cfg.n_dev).map fun i => cfg.pins.getD i 0) 0 with
      | none =>
        simp only [ws2812_config_ard, if_neg h]
        rw [hloop]
        simp [h]
      | some msk =>
        simp only [ws2812_config_ard, if_neg h]
        rw [hloop]
        simp [h]
  · intro dev cfg
    simp [ws2812_config_stm8s]

/-- Witness for C3 (amended): a zero-device AVR configuration is rejected
with a nonzero code, a two-pin Arduino configuration whose pins map to two
different ports is rejected, and the STM8S configuration of one pin
succeeds. -/
theorem c3_config_validation_amended_witness :
    (ws2812_config_avr dev_ex ⟨0, 0, [], 50, rgb, 0⟩ 0).1 ≠ 0 ∧
    (ws2812_config_ard id id id dev_ex ⟨[0, 1], 50, rgb, 2⟩ 0).1 ≠ 0 ∧
    (ws2812_config_stm8s dev_ex ⟨0, [1], 50, rgb, 1⟩).1 = 0 :=
  ⟨(c3_config_validation_amended.1 dev_ex ⟨0, 0, [], 50, rgb, 0⟩ 0).mpr rfl,
   (c3_config_validation_amended.2.1 id id id dev_ex ⟨[0, 1], 50, rgb, 2⟩ 0).mpr
     (Or.inr (by decide)),
   c3_config_validation_amended.2.2 dev_ex ⟨0, [1], 50, rgb, 1⟩⟩
